import Mathlib

/-!
Shallow embedding of the Bayesian coin-flipping calculator in
`src/script.js`. JavaScript numbers are modelled as exact rationals (ℚ);
DOM rendering, alerts and event wiring are dropped, only the mutations of
the core state (`bayesModel`, `history`, `trialCounter`) are kept.
-/

/-- One entry of the global `bayesModel` array: an object
`{ p_value, prior, posterior }`.  The `unnormalizedPosterior` field is
added to the object by `performUpdate` in the JS; here it is a plain field,
initialised to 0 wherever the JS object does not yet carry it. -/
structure Hypothesis where
  p_value : ℚ
  prior : ℚ
  posterior : ℚ
  unnormalizedPosterior : ℚ
  deriving DecidableEq, Repr

/-- One entry of the global `history` array, built in `performUpdate`
(src/script.js lines 235-242). -/
structure TrialRecord where
  trial : ℕ
  N : ℕ
  k : ℕ
  prior : List ℚ
  posterior : List ℚ
  p_values : List ℚ
  deriving DecidableEq, Repr

/-- The three global mutable variables of src/script.js lines 2-4. -/
structure ModelState where
  bayesModel : List Hypothesis
  history : List TrialRecord
  trialCounter : ℕ
  deriving DecidableEq, Repr

/-- JavaScript `Math.round`: round half toward positive infinity. -/
def jsRound (x : ℚ) : ℤ := ⌊x + 1 / 2⌋

/-- The loop of `combinations` (src/script.js lines 14-17):
`res = res * (n - i + 1) / i` for `i = 1 .. j`, over exact rationals. -/
def combLoop (n : ℕ) : ℕ → ℚ
  | 0 => 1
  | j + 1 => combLoop n j * ((n : ℚ) - ((j : ℚ) + 1) + 1) / ((j : ℚ) + 1)

/-- `combinations(n, k)` from src/script.js lines 10-19.  The call sites
relevant here pass natural numbers, so the `k < 0` guard of the JS is
vacuous; `k > n / 2` is the JS floating-point comparison, taken in ℚ. -/
def combinations (n k : ℕ) : ℚ :=
  if k > n then 0
  else if k = 0 ∨ k = n then 1
  else combLoop n (if (k : ℚ) > (n : ℚ) / 2 then n - k else k)

/-- `binomialLikelihood(k, N, p)` from src/script.js lines 22-35:
`Math.pow(p, k) * Math.pow(1 - p, N - k)`.  Every caller guards
`0 <= k <= N`, where the JS subtraction `N - k` agrees with the natural
subtraction used here. -/
def binomialLikelihood (k N : ℕ) (p : ℚ) : ℚ :=
  p ^ k * (1 - p) ^ (N - k)

/-- Rounding to 3 decimal places, `Math.round(x * 1000) / 1000`
(src/script.js line 57). -/
def round3 (x : ℚ) : ℚ := (jsRound (x * 1000) : ℚ) / 1000

/-- The hypothesis list built by the loop of `initializeModel`
(src/script.js lines 49-63): p-values `i * (1 / (N - 1))` rounded to 3
decimals, uniform priors and posteriors `1 / N`. -/
def initHypotheses (count : ℕ) : List Hypothesis :=
  (List.range count).map fun i =>
    { p_value := round3 ((i : ℚ) * (1 / ((count : ℚ) - 1)))
      prior := 1 / (count : ℚ)
      posterior := 1 / (count : ℚ)
      unnormalizedPosterior := 0 }

/-- `initializeModel` (src/script.js lines 39-86), core-state part: reject
counts outside [2, 10], otherwise replace `bayesModel` with the freshly
built hypotheses.  Note that `history` and `trialCounter` are left
untouched by the JS function. -/
def initializeModel (count : ℕ) (s : ModelState) : Option ModelState :=
  if count < 2 ∨ count > 10 then none
  else some { s with bayesModel := initHypotheses count }

/-- Replace the element at position `i` (no-op when out of range), the
effect of `bayesModel[index].field = value` in the JS. -/
def setAt (l : List Hypothesis) (i : ℕ) (f : Hypothesis → Hypothesis) :
    List Hypothesis :=
  match l, i with
  | [], _ => []
  | h :: t, 0 => f h :: t
  | h :: t, n + 1 => h :: setAt t n f

/-- Which input field fired the change event in `updateModelFromInput`. -/
inductive InputField
  | pvalue
  | priorField
  deriving DecidableEq, Repr

/-- `updateModelFromInput` (src/script.js lines 88-107), core-state part:
reject values outside [0, 1] (state untouched, `false`), otherwise write
the value into the addressed field (`true`). -/
def updateModelFromInput (s : ModelState) (field : InputField) (index : ℕ)
    (value : ℚ) : ModelState × Bool :=
  if value < 0 ∨ value > 1 then (s, false)
  else
    match field with
    | .pvalue =>
        let l := setAt s.bayesModel index fun h => { h with p_value := value }
        ({ s with bayesModel := l }, true)
    | .priorField =>
        let l := setAt s.bayesModel index fun h => { h with prior := value }
        ({ s with bayesModel := l }, true)

/-- `startSimulation` (src/script.js lines 139-152): when `bayesModel` is
empty it only alerts (`false`); otherwise it renders and enables tabs
(`true`).  In both cases it mutates none of the core state. -/
def startSimulation (s : ModelState) : ModelState × Bool :=
  if s.bayesModel.isEmpty then (s, false) else (s, true)

/-- The outcome of `performUpdate`: the two alert-and-return exits and the
successful completion. -/
inductive UpdateOutcome
  | ok
  | invalidObservation
  | improbableData
  deriving DecidableEq, Repr

/-- The first forEach of `performUpdate` (src/script.js lines 201-209):
write `likelihood * prior` into each `unnormalizedPosterior`. -/
def unnormStep (N k : ℕ) (l : List Hypothesis) : List Hypothesis :=
  l.map fun h =>
    { h with unnormalizedPosterior :=
        binomialLikelihood k N h.p_value * h.prior }

/-- `totalProbability`, accumulated over the same forEach. -/
def totalProbOf (l : List Hypothesis) : ℚ :=
  (l.map (·.unnormalizedPosterior)).sum

/-- The second forEach of `performUpdate` (src/script.js lines 221-227):
`posterior = unnormalizedPosterior / totalProbability`. -/
def normStep (T : ℚ) (l : List Hypothesis) : List Hypothesis :=
  l.map fun h => { h with posterior := h.unnormalizedPosterior / T }

/-- `performUpdate` (src/script.js lines 189-248).  Inputs `N`, `k` are
the parsed integers; the guard is line 193 (`N <= 0 || k < 0 || k > N`),
the halt threshold is line 212 (`totalProbability < 1e-10`), and on
success the history record of lines 234-243 is appended and the trial
counter incremented. -/
def performUpdate (s : ModelState) (N k : ℤ) : ModelState × UpdateOutcome :=
  if N ≤ 0 ∨ k < 0 ∨ k > N then (s, .invalidObservation)
  else
    let model1 := unnormStep N.toNat k.toNat s.bayesModel
    let T := totalProbOf model1
    if T < 1 / 10 ^ 10 then
      ({ s with bayesModel := model1 }, .improbableData)
    else
      let model2 := normStep T model1
      ({ bayesModel := model2
         history := s.history ++
           [{ trial := s.trialCounter + 1
              N := N.toNat
              k := k.toNat
              prior := model2.map (·.prior)
              posterior := model2.map (·.posterior)
              p_values := model2.map (·.p_value) }]
         trialCounter := s.trialCounter + 1 },
       .ok)

/-- `usePosteriorAsPrior` (src/script.js lines 250-264), core-state part:
every hypothesis's `prior` is overwritten with its `posterior`. -/
def usePosteriorAsPrior (s : ModelState) : ModelState :=
  { s with bayesModel := s.bayesModel.map fun h => { h with prior := h.posterior } }

/-- The list of unnormalized posteriors `likelihood(k, N, p_value) * prior`
computed by an update on state `s` (the values written by `unnormStep`). -/
def unnormalized (s : ModelState) (N k : ℕ) : List ℚ :=
  s.bayesModel.map fun h => binomialLikelihood k N h.p_value * h.prior

/-- The total probability `T` of an update on state `s`. -/
def totalProb (s : ModelState) (N k : ℕ) : ℚ :=
  (unnormalized s N k).sum

/-- The state produced by the successful branch of `performUpdate`. -/
def okState (s : ModelState) (N k : ℕ) : ModelState :=
  let model2 := normStep (totalProb s N k) (unnormStep N k s.bayesModel)
  { bayesModel := model2
    history := s.history ++
      [{ trial := s.trialCounter + 1
         N := N
         k := k
         prior := model2.map (·.prior)
         posterior := model2.map (·.posterior)
         p_values := model2.map (·.p_value) }]
    trialCounter := s.trialCounter + 1 }

theorem unnormStep_map_unnorm (N k : ℕ) (l : List Hypothesis) :
    (unnormStep N k l).map (·.unnormalizedPosterior)
      = l.map fun h => binomialLikelihood k N h.p_value * h.prior := by
  simp [unnormStep, List.map_map, Function.comp]

theorem unnormStep_map_pp (N k : ℕ) (l : List Hypothesis) :
    (unnormStep N k l).map (fun h => (h.prior, h.posterior))
      = l.map fun h => (h.prior, h.posterior) := by
  simp [unnormStep, List.map_map, Function.comp]

theorem normStep_map_posterior (T : ℚ) (l : List Hypothesis) :
    (normStep T l).map (·.posterior) = (l.map (·.unnormalizedPosterior)).map (· / T) := by
  simp [normStep, List.map_map, Function.comp]

theorem normStep_map_prior (T : ℚ) (l : List Hypothesis) :
    (normStep T l).map (·.prior) = l.map (·.prior) := by
  simp [normStep, List.map_map, Function.comp]

theorem totalProbOf_unnormStep (s : ModelState) (N k : ℕ) :
    totalProbOf (unnormStep N k s.bayesModel) = totalProb s N k := by
  simp [totalProbOf, totalProb, unnormalized, unnormStep_map_unnorm]

theorem sum_map_div (l : List ℚ) (T : ℚ) : (l.map (· / T)).sum = l.sum / T := by
  induction l with
  | nil => simp
  | cons x xs ih => simp [ih, add_div]

/-- `performUpdate` takes exactly one of three branches: the invalid-input
exit, the near-zero-total-probability halt, or the successful update. -/
theorem performUpdate_cases (s : ModelState) (N k : ℤ) :
    ((N ≤ 0 ∨ k < 0 ∨ k > N) ∧ performUpdate s N k = (s, .invalidObservation)) ∨
    (¬(N ≤ 0 ∨ k < 0 ∨ k > N) ∧ totalProb s N.toNat k.toNat < 1 / 10 ^ 10 ∧
      performUpdate s N k =
        ({ s with bayesModel := unnormStep N.toNat k.toNat s.bayesModel },
         .improbableData)) ∨
    (¬(N ≤ 0 ∨ k < 0 ∨ k > N) ∧ ¬ totalProb s N.toNat k.toNat < 1 / 10 ^ 10 ∧
      performUpdate s N k = (okState s N.toNat k.toNat, .ok)) := by
  by_cases hg : N ≤ 0 ∨ k < 0 ∨ k > N
  · exact Or.inl ⟨hg, by simp [performUpdate, hg]⟩
  · right
    by_cases hT : totalProb s N.toNat k.toNat < 1 / 10 ^ 10
    · refine Or.inl ⟨hg, hT, ?_⟩
      simp only [performUpdate, if_neg hg, totalProbOf_unnormStep]
      rw [if_pos hT]
    · refine Or.inr ⟨hg, hT, ?_⟩
      simp only [performUpdate, if_neg hg, totalProbOf_unnormStep]
      rw [if_neg hT]
      rfl

/-- A two-hypothesis state (p-values 0.3 and 0.7, uniform priors), used as
a concrete test input. -/
def sample2 : ModelState :=
  { bayesModel :=
      [{ p_value := 3/10, prior := 1/2, posterior := 1/2, unnormalizedPosterior := 0 },
       { p_value := 7/10, prior := 1/2, posterior := 1/2, unnormalizedPosterior := 0 }]
    history := []
    trialCounter := 0 }

/-- A one-hypothesis state whose prior is so small that any observation
gives a positive total probability below the 1e-10 halt threshold. -/
def tinyState : ModelState :=
  { bayesModel :=
      [{ p_value := 1/2, prior := 1/10^20, posterior := 1/10^20, unnormalizedPosterior := 0 }]
    history := []
    trialCounter := 0 }

/-- C1: a successful `performUpdate` has non-zero total probability `T`,
sets every hypothesis's posterior to its unnormalized posterior divided by
`T`, and the resulting posteriors sum exactly to 1 in rational
arithmetic. -/
theorem performUpdate_ok_normalizes (s s' : ModelState) (N k : ℤ)
    (h : performUpdate s N k = (s', .ok)) :
    totalProb s N.toNat k.toNat ≠ 0 ∧
    s'.bayesModel.map (·.posterior)
      = (unnormalized s N.toNat k.toNat).map (· / totalProb s N.toNat k.toNat) ∧
    (s'.bayesModel.map (·.posterior)).sum = 1 := by
  rcases performUpdate_cases s N k with ⟨hg, he⟩ | ⟨hg, hT, he⟩ | ⟨hg, hT, he⟩
  · rw [h] at he
    simp at he
  · rw [h] at he
    simp at he
  · rw [h] at he
    have hs' : s' = okState s N.toNat k.toNat := by
      have := congrArg Prod.fst he
      simpa using this
    have hTpos : (0 : ℚ) < totalProb s N.toNat k.toNat := by
      have h10 : (0 : ℚ) < 1 / 10 ^ 10 := by norm_num
      linarith [not_lt.mp hT]
    have hT0 : totalProb s N.toNat k.toNat ≠ 0 := ne_of_gt hTpos
    refine ⟨hT0, ?_, ?_⟩
    · rw [hs']
      show (normStep (totalProb s N.toNat k.toNat)
          (unnormStep N.toNat k.toNat s.bayesModel)).map (·.posterior) = _
      rw [normStep_map_posterior, unnormStep_map_unnorm]
      rfl
    · rw [hs']
      show ((normStep (totalProb s N.toNat k.toNat)
          (unnormStep N.toNat k.toNat s.bayesModel)).map (·.posterior)).sum = 1
      rw [normStep_map_posterior, unnormStep_map_unnorm]
      have : (s.bayesModel.map fun h => binomialLikelihood k.toNat N.toNat h.p_value * h.prior)
          = unnormalized s N.toNat k.toNat := rfl
      rw [this, sum_map_div]
      exact div_self hT0

/-- Witness for C1: the update on `sample2` with one flip, one head,
succeeds and satisfies the normalization property. -/
theorem performUpdate_ok_normalizes_witness :
    totalProb sample2 (1 : ℤ).toNat (1 : ℤ).toNat ≠ 0 ∧
    (performUpdate sample2 1 1).1.bayesModel.map (·.posterior)
      = (unnormalized sample2 (1 : ℤ).toNat (1 : ℤ).toNat).map
          (· / totalProb sample2 (1 : ℤ).toNat (1 : ℤ).toNat) ∧
    ((performUpdate sample2 1 1).1.bayesModel.map (·.posterior)).sum = 1 :=
  performUpdate_ok_normalizes sample2 ((performUpdate sample2 1 1).1) 1 1 (by
    norm_num [performUpdate, sample2, unnormStep, totalProbOf, normStep,
      binomialLikelihood, show ((1 : ℤ).toNat = 1) from rfl])

/-- C2 counterexample: on `tinyState` with one flip and one head the total
probability is positive — not exactly zero — yet `performUpdate` halts
with the improbable-data alert, so the halt condition is not `T == 0`. -/
theorem improbable_halt_with_nonzero_total :
    totalProb tinyState (1 : ℤ).toNat (1 : ℤ).toNat ≠ 0 ∧
    (performUpdate tinyState 1 1).2 = .improbableData := by
  constructor
  · norm_num [totalProb, unnormalized, binomialLikelihood, tinyState,
      show ((1 : ℤ).toNat = 1) from rfl]
  · norm_num [performUpdate, tinyState, unnormStep, totalProbOf, normStep,
      binomialLikelihood, show ((1 : ℤ).toNat = 1) from rfl]

/-- C2 (amended): for a valid observation, `performUpdate` halts with the
improbable-data error exactly when the total probability is below the
`1e-10` threshold (not only when it is exactly zero); on that halt every
hypothesis's prior and posterior, the history, and the trial counter are
unchanged from before the call. -/
theorem performUpdate_improbable_iff (s : ModelState) (N k : ℤ)
    (hg : ¬(N ≤ 0 ∨ k < 0 ∨ k > N)) :
    ((performUpdate s N k).2 = .improbableData ↔
      totalProb s N.toNat k.toNat < 1 / 10 ^ 10) ∧
    ((performUpdate s N k).2 = .improbableData →
      (performUpdate s N k).1.bayesModel.map (fun h => (h.prior, h.posterior))
        = s.bayesModel.map (fun h => (h.prior, h.posterior)) ∧
      (performUpdate s N k).1.history = s.history ∧
      (performUpdate s N k).1.trialCounter = s.trialCounter) := by
  rcases performUpdate_cases s N k with ⟨hg', he⟩ | ⟨-, hT, he⟩ | ⟨-, hT, he⟩
  · exact absurd hg' hg
  · rw [he]
    exact ⟨⟨fun _ => hT, fun _ => rfl⟩, fun _ => ⟨unnormStep_map_pp _ _ _, rfl, rfl⟩⟩
  · rw [he]
    constructor
    · constructor
      · intro hcontra
        simp at hcontra
      · intro hlt
        exact absurd hlt hT
    · intro hcontra
      simp at hcontra

/-- Witness for C2 (amended) at `tinyState` with one flip and one head. -/
theorem performUpdate_improbable_iff_witness :
    (performUpdate tinyState 1 1).2 = .improbableData :=
  (performUpdate_improbable_iff tinyState 1 1 (by norm_num)).1.mpr (by
    norm_num [totalProb, unnormalized, binomialLikelihood, tinyState,
      show ((1 : ℤ).toNat = 1) from rfl])

theorem unnormStep_map_prior (N k : ℕ) (l : List Hypothesis) :
    (unnormStep N k l).map (·.prior) = l.map (·.prior) := by
  simp [unnormStep, List.map_map, Function.comp]

/-- C3 counterexample: two successful updates run back to back on
`sample2`.  The state entering the second update still carries the
original priors [1/2, 1/2] while the first update produced posteriors
[3/10, 7/10]: the prior is not overwritten with the previous posterior by
the update itself, so the claimed automatic iteration step does not
happen. -/
theorem sequential_updates_keep_prior :
    (performUpdate sample2 1 1).2 = .ok ∧
    (performUpdate (performUpdate sample2 1 1).1 1 1).2 = .ok ∧
    (performUpdate sample2 1 1).1.bayesModel.map (·.prior) = [1/2, 1/2] ∧
    (performUpdate sample2 1 1).1.bayesModel.map (·.posterior) = [3/10, 7/10] ∧
    (performUpdate sample2 1 1).1.bayesModel.map (·.prior)
      ≠ (performUpdate sample2 1 1).1.bayesModel.map (·.posterior) := by
  norm_num [performUpdate, sample2, unnormStep, totalProbOf, normStep,
    binomialLikelihood, show ((1 : ℤ).toNat = 1) from rfl]

/-- C3 (amended): the iteration step is not automatic.  `performUpdate`
itself leaves every prior unchanged; the separate, explicit
`usePosteriorAsPrior` operation overwrites each hypothesis's prior with
its posterior, so only when it is invoked between two updates does the
second update's effective prior (the values entering its likelihood step)
equal exactly the posterior produced by the first update. -/
theorem usePosteriorAsPrior_advances (s s1 : ModelState) (N1 k1 : ℤ)
    (h1 : performUpdate s N1 k1 = (s1, .ok)) :
    (usePosteriorAsPrior s1).bayesModel.map (·.prior)
      = s1.bayesModel.map (·.posterior) ∧
    (∀ N2 k2 : ℕ, unnormalized (usePosteriorAsPrior s1) N2 k2
      = s1.bayesModel.map fun h => binomialLikelihood k2 N2 h.p_value * h.posterior) ∧
    s1.bayesModel.map (·.prior) = s.bayesModel.map (·.prior) := by
  refine ⟨?_, ?_, ?_⟩
  · simp [usePosteriorAsPrior, List.map_map, Function.comp]
  · intro N2 k2
    simp [usePosteriorAsPrior, unnormalized, List.map_map, Function.comp]
  · rcases performUpdate_cases s N1 k1 with ⟨-, he⟩ | ⟨-, -, he⟩ | ⟨-, -, he⟩ <;>
      rw [h1] at he
    · simp at he
    · simp at he
    · have hs1 : s1 = okState s N1.toNat k1.toNat := by
        have := congrArg Prod.fst he
        simpa using this
      rw [hs1]
      show (normStep (totalProb s N1.toNat k1.toNat)
          (unnormStep N1.toNat k1.toNat s.bayesModel)).map (·.prior) = _
      rw [normStep_map_prior, unnormStep_map_prior]

/-- Witness for C3 (amended): after a successful update on `sample2`,
invoking `usePosteriorAsPrior` makes the priors equal the posteriors the
update produced. -/
theorem usePosteriorAsPrior_advances_witness :
    (usePosteriorAsPrior (performUpdate sample2 1 1).1).bayesModel.map (·.prior)
      = (performUpdate sample2 1 1).1.bayesModel.map (·.posterior) :=
  (usePosteriorAsPrior_advances sample2 ((performUpdate sample2 1 1).1) 1 1 (by
    norm_num [performUpdate, sample2, unnormStep, totalProbOf, normStep,
      binomialLikelihood, show ((1 : ℤ).toNat = 1) from rfl])).1

/-- The state right after page load, before any configuration. -/
def emptyState : ModelState := { bayesModel := [], history := [], trialCounter := 0 }

/-- C4 counterexample: initializing with 2 hypotheses produces the
p-values [0, 1] — the endpoints are not clamped into [0.01, 0.99], 0 lies
below 0.01 and 1 lies above 0.99. -/
theorem initializeModel_pvalue_unclamped :
    (initializeModel 2 emptyState).map (fun s => s.bayesModel.map (·.p_value))
      = some [0, 1] ∧ (0 : ℚ) < 1 / 100 ∧ (99 : ℚ) / 100 < 1 := by
  refine ⟨?_, by norm_num, by norm_num⟩
  norm_num [initializeModel, initHypotheses, round3, jsRound, List.range_succ, emptyState]

/-- C4 (amended): for every valid count in [2, 10], initialization
replaces the model with exactly `count` hypotheses whose p-values are
`i / (count - 1)` rounded to 3 decimal places with no clamping — hence
they lie in [0, 1] (including the exact endpoints 0 and 1) and are
strictly increasing in index — and each hypothesis receives uniform prior
`1 / count`, the priors summing exactly to 1. -/
theorem initializeModel_spec (count : ℕ) (h2 : 2 ≤ count) (h10 : count ≤ 10) :
    (∀ s : ModelState, initializeModel count s
      = some { s with bayesModel := initHypotheses count }) ∧
    (initHypotheses count).length = count ∧
    (initHypotheses count).map (·.p_value)
      = (List.range count).map (fun i => round3 ((i : ℚ) / ((count : ℚ) - 1))) ∧
    (∀ p ∈ (initHypotheses count).map (·.p_value), 0 ≤ p ∧ p ≤ 1) ∧
    List.Chain' (· < ·) ((initHypotheses count).map (·.p_value)) ∧
    (∀ h ∈ initHypotheses count, h.prior = 1 / (count : ℚ) ∧ h.posterior = 1 / (count : ℚ)) ∧
    ((initHypotheses count).map (·.prior)).sum = 1 := by
  constructor
  · intro s
    have hc : ¬(count < 2 ∨ count > 10) := by omega
    simp [initializeModel, hc]
  · interval_cases count <;>
      norm_num [initHypotheses, round3, jsRound, List.range_succ, div_eq_mul_inv]

/-- Witness for C4 (amended): the default five-hypothesis initialization
has priors summing exactly to 1. -/
theorem initializeModel_spec_witness :
    ((initHypotheses 5).map (·.prior)).sum = 1 :=
  (initializeModel_spec 5 (by norm_num) (by norm_num)).2.2.2.2.2.2

theorem combLoop_pos (n : ℕ) : ∀ j, j ≤ n → 0 < combLoop n j := by
  intro j
  induction j with
  | zero =>
    intro _
    norm_num [combLoop]
  | succ m ih =>
    intro hj
    have hm : m ≤ n := Nat.le_of_succ_le hj
    have h1 : (0 : ℚ) < (n : ℚ) - ((m : ℚ) + 1) + 1 := by
      have : (m : ℚ) < (n : ℚ) := by exact_mod_cast Nat.lt_of_succ_le hj
      linarith
    have h2 : (0 : ℚ) < (m : ℚ) + 1 := by positivity
    show 0 < combLoop n m * ((n : ℚ) - ((m : ℚ) + 1) + 1) / ((m : ℚ) + 1)
    exact div_pos (mul_pos (ih hm) h1) h2

theorem combinations_pos (n k : ℕ) (hk : k ≤ n) : 0 < combinations n k := by
  unfold combinations
  rw [if_neg (by omega : ¬ k > n)]
  by_cases h0 : k = 0 ∨ k = n
  · rw [if_pos h0]
    norm_num
  · rw [if_neg h0]
    apply combLoop_pos
    split
    · omega
    · omega

theorem sum_map_mul (l : List ℚ) (c : ℚ) : (l.map (c * ·)).sum = c * l.sum := by
  induction l with
  | nil => simp
  | cons x xs ih => simp [ih, mul_add]

/-- Modelled from the spec: the unnormalized posteriors with the binomial
coefficient `C(N, k)` included in every likelihood, the variant the spec
compares against the coefficient-free `unnormalized` of the source. -/
def unnormalizedWithCoef (s : ModelState) (N k : ℕ) : List ℚ :=
  s.bayesModel.map fun h =>
    combinations N k * binomialLikelihood k N h.p_value * h.prior

/-- C5: for every hypothesis set and observation with `k ≤ N` and non-zero
total probability, normalizing the unnormalized posteriors that include
the binomial coefficient `C(N, k)` gives exactly the same posteriors as
normalizing the coefficient-free ones: the coefficient cancels. -/
theorem binomial_coef_cancels (s : ModelState) (N k : ℕ) (hk : k ≤ N)
    (hT : totalProb s N k ≠ 0) :
    (unnormalizedWithCoef s N k).map (· / (unnormalizedWithCoef s N k).sum)
      = (unnormalized s N k).map (· / totalProb s N k) := by
  have hC : (0 : ℚ) < combinations N k := combinations_pos N k hk
  have h1 : unnormalizedWithCoef s N k
      = (unnormalized s N k).map (combinations N k * ·) := by
    simp [unnormalizedWithCoef, unnormalized, List.map_map, Function.comp, mul_assoc]
  have h2 : (unnormalizedWithCoef s N k).sum
      = combinations N k * totalProb s N k := by
    rw [h1, totalProb, sum_map_mul]
  rw [h2, h1, List.map_map]
  apply List.map_congr_left
  intro u _
  show combinations N k * u / (combinations N k * totalProb s N k) = u / totalProb s N k
  exact mul_div_mul_left u (totalProb s N k) (ne_of_gt hC)

/-- Witness for C5 on `sample2` with two flips and one head. -/
theorem binomial_coef_cancels_witness :
    (unnormalizedWithCoef sample2 2 1).map (· / (unnormalizedWithCoef sample2 2 1).sum)
      = (unnormalized sample2 2 1).map (· / totalProb sample2 2 1) :=
  binomial_coef_cancels sample2 2 1 (by norm_num) (by
    norm_num [totalProb, unnormalized, binomialLikelihood, sample2])

/-- C6: for `0 ≤ k ≤ N` and `0 < p < 1`, the likelihood function returns
exactly `p ^ k * (1 - p) ^ (N - k)`, where `N - k` is the true integer
difference (which the precondition makes non-negative). -/
theorem binomialLikelihood_formula (k N : ℕ) (p : ℚ) (hk : k ≤ N)
    (hp0 : 0 < p) (hp1 : p < 1) :
    binomialLikelihood k N p = p ^ k * (1 - p) ^ ((N : ℤ) - (k : ℤ)).toNat := by
  have h : ((N : ℤ) - (k : ℤ)).toNat = N - k := by omega
  rw [h]
  rfl

/-- Witness for C6 at one head in two flips with a fair coin. -/
theorem binomialLikelihood_formula_witness :
    binomialLikelihood 1 2 (1/2)
      = (1/2 : ℚ) ^ 1 * (1 - 1/2) ^ ((2 : ℤ) - (1 : ℤ)).toNat :=
  binomialLikelihood_formula 1 2 (1/2) (by norm_num) (by norm_num) (by norm_num)

/-- A one-hypothesis state with p-value 0.99 and prior 1, for which 101
heads in 101 flips has total probability far above the halt threshold. -/
def bigState : ModelState :=
  { bayesModel :=
      [{ p_value := 99/100, prior := 1, posterior := 1, unnormalizedPosterior := 0 }]
    history := []
    trialCounter := 0 }

/-- C7 counterexample: the observation N = 101 (greater than 100) is not
rejected — the update runs to successful completion, so `performUpdate`
enforces no upper bound of 100 on N. -/
theorem performUpdate_accepts_large_N :
    (100 : ℤ) < 101 ∧ (performUpdate bigState 101 101).2 = .ok := by
  refine ⟨by norm_num, ?_⟩
  norm_num [performUpdate, bigState, unnormStep, totalProbOf, normStep,
    binomialLikelihood, show ((101 : ℤ).toNat = 101) from rfl]

/-- C7 (amended): the update fails with the invalid-observation error,
mutating no state, exactly when the parsed observation violates `N ≥ 1`
or `0 ≤ k ≤ N`; the code imposes no upper bound on `N`. -/
theorem performUpdate_invalid_iff (s : ModelState) (N k : ℤ) :
    ((performUpdate s N k).2 = .invalidObservation ↔ (N ≤ 0 ∨ k < 0 ∨ k > N)) ∧
    ((performUpdate s N k).2 = .invalidObservation → (performUpdate s N k).1 = s) := by
  rcases performUpdate_cases s N k with ⟨hg, he⟩ | ⟨hg, hT, he⟩ | ⟨hg, hT, he⟩ <;>
    rw [he]
  · exact ⟨⟨fun _ => hg, fun _ => rfl⟩, fun _ => rfl⟩
  · refine ⟨⟨fun hc => ?_, fun hgg => absurd hgg hg⟩, fun hc => ?_⟩ <;> simp at hc
  · refine ⟨⟨fun hc => ?_, fun hgg => absurd hgg hg⟩, fun hc => ?_⟩ <;> simp at hc

/-- Witness for C7 (amended): zero flips is rejected as invalid. -/
theorem performUpdate_invalid_iff_witness :
    (performUpdate sample2 0 0).2 = .invalidObservation :=
  (performUpdate_invalid_iff sample2 0 0).1.mpr (by norm_num)

theorem setAt_map_set (l : List Hypothesis) (i : ℕ) (f : Hypothesis → Hypothesis)
    (g : Hypothesis → ℚ) (v : ℚ) (hf : ∀ h, g (f h) = v) :
    (setAt l i f).map g = (l.map g).set i v := by
  induction l generalizing i with
  | nil => simp [setAt]
  | cons x xs ih =>
    cases i with
    | zero => simp [setAt, hf]
    | succ n => simp [setAt, ih]

theorem setAt_map_eq {α : Type} (l : List Hypothesis) (i : ℕ)
    (f : Hypothesis → Hypothesis) (g : Hypothesis → α)
    (hf : ∀ h, g (f h) = g h) :
    (setAt l i f).map g = l.map g := by
  induction l generalizing i with
  | nil => simp [setAt]
  | cons x xs ih =>
    cases i with
    | zero => simp [setAt, hf]
    | succ n => simp [setAt, ih]

/-- A one-hypothesis state used as a concrete test input. -/
def sample1 : ModelState :=
  { bayesModel :=
      [{ p_value := 1/2, prior := 1, posterior := 1, unnormalizedPosterior := 0 }]
    history := []
    trialCounter := 0 }

/-- C8 counterexample: the p-value inputs 0 and 1 both lie outside
[0.01, 0.99] yet are accepted — the edit succeeds and writes the value, so
the validation bound is not [0.01, 0.99]. -/
theorem setPValue_accepts_zero_and_one :
    (0 : ℚ) < 1 / 100 ∧
    (updateModelFromInput sample1 .pvalue 0 0).2 = true ∧
    (updateModelFromInput sample1 .pvalue 0 0).1.bayesModel.map (·.p_value) = [0] ∧
    (updateModelFromInput sample1 .pvalue 0 1).2 = true := by
  norm_num [updateModelFromInput, setAt, sample1]

/-- C8 (amended): setting a hypothesis's p-value is rejected — the state,
including the addressed field, left exactly as it was — precisely when the
new value lies outside [0, 1]; the endpoint values 0 and 1 are accepted.
On acceptance only the addressed p-value changes: every prior, posterior,
the history, and the trial counter are untouched. -/
theorem updateModelFromInput_pvalue_spec (s : ModelState) (i : ℕ) (v : ℚ) :
    ((updateModelFromInput s .pvalue i v).2 = false ↔ (v < 0 ∨ v > 1)) ∧
    ((updateModelFromInput s .pvalue i v).2 = false →
      (updateModelFromInput s .pvalue i v).1 = s) ∧
    ((updateModelFromInput s .pvalue i v).2 = true →
      (updateModelFromInput s .pvalue i v).1.bayesModel.map (·.p_value)
        = (s.bayesModel.map (·.p_value)).set i v ∧
      (updateModelFromInput s .pvalue i v).1.bayesModel.map (fun h => (h.prior, h.posterior))
        = s.bayesModel.map (fun h => (h.prior, h.posterior)) ∧
      (updateModelFromInput s .pvalue i v).1.history = s.history ∧
      (updateModelFromInput s .pvalue i v).1.trialCounter = s.trialCounter) := by
  by_cases hv : v < 0 ∨ v > 1
  · simp only [updateModelFromInput, if_pos hv]
    refine ⟨⟨fun _ => hv, fun _ => trivial⟩, fun _ => trivial, fun hc => ?_⟩
    simp at hc
  · simp only [updateModelFromInput, if_neg hv]
    refine ⟨⟨fun hc => ?_, fun hvv => absurd hvv hv⟩, fun hc => ?_, fun _ => ?_⟩
    · simp at hc
    · simp at hc
    · refine ⟨?_, ?_, by trivial, by trivial⟩
      · exact setAt_map_set _ _ _ _ _ (fun h => rfl)
      · exact setAt_map_eq _ _ _ _ (fun h => rfl)

/-- Witness for C8 (amended): the value -1 is rejected. -/
theorem updateModelFromInput_pvalue_spec_witness :
    (updateModelFromInput sample1 .pvalue 0 (-1)).2 = false :=
  (updateModelFromInput_pvalue_spec sample1 0 (-1)).1.mpr (by norm_num)

/-- A state in mid-session: one trial already recorded, counter at 1. -/
def histState : ModelState :=
  { bayesModel :=
      [{ p_value := 1/2, prior := 1, posterior := 1, unnormalizedPosterior := 1/2 }]
    history :=
      [{ trial := 1, N := 1, k := 1, prior := [1], posterior := [1], p_values := [1/2] }]
    trialCounter := 1 }

/-- C9 counterexample: configuring a fresh 3-hypothesis set and invoking
start leaves the non-empty history and the trial counter of the previous
session untouched — nothing is cleared or reset. -/
theorem new_simulation_keeps_history :
    histState.history ≠ [] ∧
    (initializeModel 3 histState).map
        (fun s => ((startSimulation s).1.history, (startSimulation s).1.trialCounter))
      = some (histState.history, 1) := by
  constructor
  · simp [histState]
  · norm_num [initializeModel, initHypotheses, startSimulation, histState, round3,
      jsRound, List.range_succ, List.isEmpty_cons]
    refine ⟨?_, ?_⟩ <;> split <;> rfl

/-- The history invariant: the trial counter equals the number of records
and record i carries trial number i + 1. -/
def historyInv (s : ModelState) : Prop :=
  s.trialCounter = s.history.length ∧
  s.history.map (·.trial) = (List.range s.history.length).map (· + 1)

theorem historyInv_append (b : List Hypothesis) (s : ModelState) (r : TrialRecord)
    (hInv : historyInv s) (hr : r.trial = s.trialCounter + 1) :
    historyInv { bayesModel := b
                 history := s.history ++ [r]
                 trialCounter := s.trialCounter + 1 } := by
  obtain ⟨h1, h2⟩ := hInv
  constructor
  · show s.trialCounter + 1 = (s.history ++ [r]).length
    simp [h1]
  · show (s.history ++ [r]).map (·.trial)
      = (List.range (s.history ++ [r]).length).map (· + 1)
    rw [List.length_append, List.map_append]
    simp only [List.length_singleton, List.range_succ, List.map_append, List.map_cons,
      List.map_nil, h2]
    simp [hr, h1]

/-- C9 (amended): the history is append-only — a successful update appends
exactly one record, carrying trial number trialCounter + 1, and any other
outcome leaves history and counter unchanged — so record i always has
trial number i + 1.  However, starting a new simulation clears nothing:
both `initializeModel` and `startSimulation` leave the history and the
trial counter exactly as they were, the counter being reset only by a
page reload. -/
theorem history_append_only (s : ModelState) (N k : ℤ) (hInv : historyInv s) :
    historyInv (performUpdate s N k).1 ∧
    ((performUpdate s N k).2 = .ok →
      ∃ r : TrialRecord, (performUpdate s N k).1.history = s.history ++ [r] ∧
        r.trial = s.trialCounter + 1) ∧
    ((performUpdate s N k).2 ≠ .ok →
      (performUpdate s N k).1.history = s.history ∧
      (performUpdate s N k).1.trialCounter = s.trialCounter) ∧
    (∀ count s', initializeModel count s = some s' →
      s'.history = s.history ∧ s'.trialCounter = s.trialCounter) ∧
    (startSimulation s).1.history = s.history ∧
    (startSimulation s).1.trialCounter = s.trialCounter := by
  have hInit : ∀ count s', initializeModel count s = some s' →
      s'.history = s.history ∧ s'.trialCounter = s.trialCounter := by
    intro count s' h
    unfold initializeModel at h
    split at h
    · cases h
    · cases h
      exact ⟨rfl, rfl⟩
  have hStart : (startSimulation s).1.history = s.history ∧
      (startSimulation s).1.trialCounter = s.trialCounter := by
    unfold startSimulation
    split
    · exact ⟨rfl, rfl⟩
    · exact ⟨rfl, rfl⟩
  rcases performUpdate_cases s N k with ⟨hg, he⟩ | ⟨hg, hT, he⟩ | ⟨hg, hT, he⟩ <;>
    rw [he]
  · refine ⟨hInv, fun hc => ?_, fun _ => ⟨rfl, rfl⟩, hInit, hStart⟩
    simp at hc
  · refine ⟨hInv, fun hc => ?_, fun _ => ⟨rfl, rfl⟩, hInit, hStart⟩
    simp at hc
  · refine ⟨?_, fun _ => ⟨_, rfl, rfl⟩, fun hc => absurd rfl hc, hInit, hStart⟩
    exact historyInv_append _ s _ hInv rfl

/-- Witness for C9 (amended): on a mid-session state, invoking start
leaves the recorded history in place. -/
theorem history_append_only_witness :
    (startSimulation histState).1.history = histState.history :=
  (history_append_only histState 1 0 ⟨rfl, rfl⟩).2.2.2.2.1

/-- C10: when the update is halted by the near-zero-total-probability
check, every hypothesis's `unnormalizedPosterior` field has nevertheless
already been overwritten with `likelihood(k, N, p_value) * prior` for the
rejected observation, while every hypothesis's prior and posterior are
unchanged. -/
theorem performUpdate_halt_writes_unnormalized (s s' : ModelState) (N k : ℤ)
    (h : performUpdate s N k = (s', .improbableData)) :
    s'.bayesModel.map (·.unnormalizedPosterior) = unnormalized s N.toNat k.toNat ∧
    s'.bayesModel.map (fun h => (h.prior, h.posterior))
      = s.bayesModel.map (fun h => (h.prior, h.posterior)) := by
  rcases performUpdate_cases s N k with ⟨hg, he⟩ | ⟨hg, hT, he⟩ | ⟨hg, hT, he⟩ <;>
    rw [h] at he
  · simp at he
  · have hs' : s' = { s with bayesModel := unnormStep N.toNat k.toNat s.bayesModel } := by
      have := congrArg Prod.fst he
      simpa using this
    rw [hs']
    constructor
    · show (unnormStep N.toNat k.toNat s.bayesModel).map (·.unnormalizedPosterior) = _
      rw [unnormStep_map_unnorm]
      rfl
    · exact unnormStep_map_pp _ _ _
  · simp at he

/-- Witness for C10 on the halted update of `tinyState`. -/
theorem performUpdate_halt_writes_unnormalized_witness :
    (performUpdate tinyState 1 1).1.bayesModel.map (·.unnormalizedPosterior)
      = unnormalized tinyState (1 : ℤ).toNat (1 : ℤ).toNat :=
  (performUpdate_halt_writes_unnormalized tinyState ((performUpdate tinyState 1 1).1) 1 1
    (by norm_num [performUpdate, tinyState, unnormStep, totalProbOf, normStep,
      binomialLikelihood, show ((1 : ℤ).toNat = 1) from rfl])).1
